import Mathlib

/-!
Verification development for the m-pesa Node.js SDK.

The definitions below are a shallow embedding of the TypeScript sources:
`src/APIClient.ts` (transport: retry loop, pagination, centralized error
handling), `src/MPesa.ts` (token lifecycle and operation wrappers),
`src/models/*.ts` (response decoding) and `src/errors/MPesaError.ts`
(error classes).  JavaScript numbers that matter here are integral
(millisecond timestamps, HTTP status codes, retry counters), so they are
modelled as Int or Nat; JavaScript truthiness tests are spelled out
explicitly at each use site.  A thrown exception is modelled as an
explicit error value; mutation of `this` is modelled by explicit state
passing, returning the final state even on the throwing paths.
-/

namespace APIClient

/-- The `error.response` part of an axios error: the HTTP status and the
(stringified) response body, present only when the server answered. -/
structure ErrResponse where
  status : Nat
  body : Option String
deriving DecidableEq, Repr

/-- An axios failure as observed by `handleError` (`src/APIClient.ts`
lines 84-107): `response` is present when the server answered with an
error status, `request` is true when a request was dispatched (so its
absence together with a missing response is a setup error), and
`message` is the JavaScript error message. -/
structure AxiosFailure where
  response : Option ErrResponse
  request : Bool
  message : String
deriving DecidableEq, Repr

/-- One constructor per `throw` site of `src/APIClient.ts`.  The first
six come from `handleError`; `maxRetriesFallback` is the
`Request failed after max retries.` fallback at the end of
`requestWithRetry` (line 56). -/
inductive CodeError where
  | badRequest
  | unauthorized
  | notFound
  | serverError
  | httpError (status : Nat) (body : Option String)
  | networkError
  | genericError (inner : String)
  | maxRetriesFallback
deriving DecidableEq, Repr

/-- The message of the `Error` thrown at each site, exactly as built by
the source.  The `genericError` site interpolates the caught error's
message into the template `Error: ...`; the `httpError` site
interpolates the status and the stringified body, with the literal
`Unknown error` when the body is absent. -/
def CodeError.message : CodeError → String
  | .badRequest => "Bad Request: Check your input."
  | .unauthorized => "Unauthorized: Invalid credentials."
  | .notFound => "Not Found: The requested resource does not exist."
  | .serverError => "Server Error: Try again later."
  | .httpError status body =>
      "HTTP Error: " ++ toString status ++ " - " ++
        (match body with
         | some b => b
         | none => "Unknown error")
  | .networkError => "Network Error: No response from server."
  | .genericError inner => "Error: " ++ inner
  | .maxRetriesFallback => "Request failed after max retries."

/-- `APIClient.handleError` (`src/APIClient.ts` lines 84-107): a `switch`
on the response status when a response exists (the TypeScript `switch`
on literals is a sequence of equality tests), the network-error branch
when only a request exists, and the generic branch otherwise. -/
def handleError (e : AxiosFailure) : CodeError :=
  match e.response with
  | some r =>
      if r.status = 400 then .badRequest
      else if r.status = 401 then .unauthorized
      else if r.status = 404 then .notFound
      else if r.status = 500 then .serverError
      else .httpError r.status r.body
  | none => if e.request then .networkError else .genericError e.message

/-- The error taxonomy of the specification (section 4.1 / section 7). -/
inductive ErrorKind where
  | ValidationFailed
  | AuthenticationFailed
  | TransientServiceError
  | UnknownError
deriving DecidableEq, Repr

/-- The taxonomy kind of each throw site of the code, using the
specification's own identification of the kinds: the caller-fixable
4xx messages (`Bad Request`, `Not Found`) are `ValidationFailed`, the
credential message (`Unauthorized`) is `AuthenticationFailed`, the
retry-eligible conditions (server error, no response) are
`TransientServiceError`, and the remaining catch-all branches are
`UnknownError`. -/
def errorKind : CodeError → ErrorKind
  | .badRequest => .ValidationFailed
  | .notFound => .ValidationFailed
  | .unauthorized => .AuthenticationFailed
  | .serverError => .TransientServiceError
  | .networkError => .TransientServiceError
  | .httpError _ _ => .UnknownError
  | .genericError _ => .UnknownError
  | .maxRetriesFallback => .UnknownError

/-- Modelled from the spec (section 4.1 mapping rule, which the claims
restate): absence of any HTTP response gives `TransientServiceError`;
status 401/403 gives `AuthenticationFailed`; status 400/404 gives
`ValidationFailed`; status at least 500 gives `TransientServiceError`;
any other status gives `UnknownError`.  Used only to compare the
specified mapping with the one implemented by `handleError`. -/
def specClassify (e : AxiosFailure) : ErrorKind :=
  match e.response with
  | none => .TransientServiceError
  | some r =>
      if r.status = 401 ∨ r.status = 403 then .AuthenticationFailed
      else if r.status = 400 ∨ r.status = 404 then .ValidationFailed
      else if 500 ≤ r.status then .TransientServiceError
      else .UnknownError

/-- The final re-throw of `requestWithRetry` (line 51): the caught value
there is the plain `Error` already thrown by the response interceptor's
`handleError` (installed in the constructor, lines 20-23), so the cast
`error as AxiosError` yields a value with neither `response` nor
`request`, and `handleError` lands in its generic branch, wrapping the
message once more as `Error: ...`. -/
def rethrow (e : CodeError) : CodeError := .genericError e.message

/-- The `while (attempts < this.retries)` loop of `requestWithRetry`
(`src/APIClient.ts` lines 32-56).  `outcomes k` is the raw result of the
k-th HTTP attempt (1-indexed, matching the value of `attempts` after its
increment); an error outcome reaches the `catch` already classified by
the response interceptor (`handleError`).  `fuel` is the loop variant
`retries - attempts`; when it reaches 0 the loop exits to the fallback
throw.  The result carries the value returned or error thrown together
with the final value of `attempts`. -/
def requestLoop {α : Type} (outcomes : Nat → Except AxiosFailure α)
    (retries : Nat) : Nat → Nat → Except CodeError α × Nat
  | 0, attempts => (.error .maxRetriesFallback, attempts)
  | fuel + 1, attempts =>
      let a := attempts + 1
      match outcomes a with
      | .ok v => (.ok v, a)
      | .error e =>
          if retries ≤ a then (.error (rethrow (handleError e)), a)
          else requestLoop outcomes retries fuel a

/-- `APIClient.requestWithRetry` (`src/APIClient.ts` lines 26-57),
entered with `attempts = 0`. -/
def requestWithRetry {α : Type} (outcomes : Nat → Except AxiosFailure α)
    (retries : Nat) : Except CodeError α × Nat :=
  requestLoop outcomes retries retries 0

/-- The decoded JSON body of one page as read by `fetchPaginated`
(`src/APIClient.ts` lines 59-82): `results` is `some xs` exactly when
the results field (`resultsKey`) holds an array, and `cursor` is
`some s` exactly when the pagination field (`paginationKey`) holds the
string `s` (absent or null gives `none`). -/
structure PageBody (α : Type) where
  results : Option (List α)
  cursor : Option String
deriving DecidableEq, Repr

/-- The `(responseData[paginationKey] as string) || null` step
(line 78): a JavaScript falsy cursor — absent, null, or the empty
string — becomes null and stops the traversal. -/
def nextCursor {α : Type} (b : PageBody α) : Option String :=
  match b.cursor with
  | some s => if s = "" then none else some s
  | none => none

/-- The elements appended for one page (lines 73-75): the array held by
the results field, or nothing when that field is missing or not an
array. -/
def pageItems {α : Type} (b : PageBody α) : List α :=
  match b.results with
  | some xs => xs
  | none => []

/-- `APIClient.fetchPaginated` (`src/APIClient.ts` lines 59-82) for a
server whose every GET succeeds: `server u` is the decoded body the
transport returns for URL `u`.  The accumulator loop of the source is
written as direct recursion (the accumulated list is the concatenation
of the per-page appends, in page order).  `fuel` bounds the number of
iterations; `none` models the loop still running, so any `some` result
is one the source loop actually produces.  The `Nat` component counts
the GET calls performed. -/
def fetchPaginated {α : Type} (server : String → PageBody α) :
    Nat → String → Option (List α × Nat)
  | 0, _ => none
  | fuel + 1, url =>
      let body := server url
      match nextCursor body with
      | none => some (pageItems body, 1)
      | some nextUrl =>
          match fetchPaginated server fuel nextUrl with
          | none => none
          | some (rest, calls) => some (pageItems body ++ rest, calls + 1)

/-- Modelled from the spec (section 4.2): the chain of cursors the
server announces.  `followsChain server u us` says that from URL `u`
the truthy cursors lead through the URLs `us` in order and the last
page's cursor is falsy. -/
def followsChain {α : Type} (server : String → PageBody α) :
    String → List String → Prop
  | u, [] => nextCursor (server u) = none
  | u, v :: rest => nextCursor (server u) = some v ∧ followsChain server v rest

instance {α : Type} (server : String → PageBody α) (u : String)
    (us : List String) : Decidable (followsChain server u us) := by
  induction us generalizing u with
  | nil => exact inferInstanceAs (Decidable (_ = _))
  | cons v rest ih => exact @instDecidableAnd _ _ _ (ih v)

/-- Modelled from the spec (section 4.2): the concatenation, in page
order, of the elements found at the results field of each page along
the cursor chain. -/
def chainItems {α : Type} (server : String → PageBody α) :
    String → List String → List α
  | u, [] => pageItems (server u)
  | u, v :: rest => pageItems (server u) ++ chainItems server v rest

/-- The configuration record accepted by the `APIClient` constructor
(`src/APIClient.ts` lines 3-7): `timeout` and `retries` are optional
numbers (`none` models `undefined`). -/
structure APIClientConfig where
  baseURL : String
  timeout : Option Int
  retries : Option Int
deriving DecidableEq, Repr

/-- The JavaScript `v || d` defaulting used by the constructor: the
default is taken when `v` is falsy, which for an optional number means
`undefined` or `0` (the integral values relevant here). -/
def jsNumOr (v : Option Int) (d : Int) : Int :=
  match v with
  | some n => if n = 0 then d else n
  | none => d

/-- The fields the `APIClient` constructor actually stores. -/
structure APIClientFields where
  timeout : Int
  retries : Int
deriving DecidableEq, Repr

/-- The `APIClient` constructor (`src/APIClient.ts` lines 13-24):
`timeout: config.timeout || 5000` and `this.retries = config.retries || 3`. -/
def mkAPIClient (c : APIClientConfig) : APIClientFields :=
  { timeout := jsNumOr c.timeout 5000, retries := jsNumOr c.retries 3 }

end APIClient

/-- UTF-8 encoding of one character, as a list of byte values; used to
model `Buffer.from(string)`. -/
def utf8EncodeCharNat (c : Char) : List Nat :=
  let n := c.toNat
  if n < 128 then [n]
  else if n < 2048 then [192 + n / 64, 128 + n % 64]
  else if n < 65536 then [224 + n / 4096, 128 + (n / 64) % 64, 128 + n % 64]
  else [240 + n / 262144, 128 + (n / 4096) % 64, 128 + (n / 64) % 64, 128 + n % 64]

/-- The UTF-8 bytes of a string, modelling `Buffer.from(value)`. -/
def utf8Bytes (s : String) : List Nat :=
  (s.data.map utf8EncodeCharNat).flatten

/-- The standard base64 alphabet. -/
def base64Chars : String :=
  "ABCDEFGHIJKLMNOPQRSTUVWXYZabcdefghijklmnopqrstuvwxyz0123456789+/"

/-- The base64 digit for a 6-bit value. -/
def base64Char (n : Nat) : Char :=
  base64Chars.data.getD n 'A'

/-- Base64 encoding of a byte list, three bytes to four digits, with
`=` padding. -/
def base64EncodeBytes : List Nat → List Char
  | [] => []
  | [a] => [base64Char (a / 4), base64Char (a % 4 * 16), '=', '=']
  | [a, b] =>
      [base64Char (a / 4), base64Char (a % 4 * 16 + b / 16),
       base64Char (b % 16 * 4), '=']
  | a :: b :: c :: rest =>
      base64Char (a / 4) :: base64Char (a % 4 * 16 + b / 16) ::
        base64Char (b % 16 * 4 + c / 64) :: base64Char (c % 64) ::
          base64EncodeBytes rest

/-- `Buffer.from(value).toString('base64')` (used by
`MPesa.authenticate`, `src/MPesa.ts` lines 62-64, and
`StringUtil.toBase64` in `src/Utils.ts`). -/
def base64Encode (s : String) : String :=
  ⟨base64EncodeBytes (utf8Bytes s)⟩

example : base64Encode "K:S" = "SzpT" := by decide

namespace MPesa

/-- The configuration fields of `MpesaConfig` (`src/MPesa.ts` lines
9-16) that the token lifecycle reads. -/
structure MpesaConfig where
  apiKey : String
  secretKey : String
deriving DecidableEq, Repr

/-- The raw authentication response body
(`src/models/AuthResponse.ts`): `expires_in` is a numeric string. -/
structure AuthResponseType where
  access_token : String
  token_type : String
  expires_in : String
deriving DecidableEq, Repr

/-- JavaScript `parseInt(s, 10)` restricted to the shapes that occur
here: the longest leading run of decimal digits; `none` models `NaN`
(no digits).  A `NaN` stored in `tokenExpiry` is falsy, exactly as a
`none` fails the match in `tokenValid` below, so the two models agree
on every observable behaviour of the client. -/
def jsParseInt (s : String) : Option Int :=
  let digits := s.data.takeWhile Char.isDigit
  if digits.isEmpty then none
  else some (Int.ofNat (digits.foldl (fun n c => n * 10 + (c.toNat - 48)) 0))

/-- `AuthResponse` (`src/models/AuthResponse.ts`): `fromApiResponse`
copies the token fields and parses `expires_in` with
`parseInt(data.expires_in, 10)`. -/
structure AuthResponse where
  accessToken : String
  tokenType : String
  expiresIn : Option Int
deriving DecidableEq, Repr

/-- `AuthResponse.fromApiResponse`. -/
def AuthResponse.fromApiResponse (d : AuthResponseType) : AuthResponse :=
  { accessToken := d.access_token
    tokenType := d.token_type
    expiresIn := jsParseInt d.expires_in }

/-- The mutable credential fields of the `MPesa` instance
(`src/MPesa.ts` lines 24-25): `accessToken: string | null` and
`tokenExpiry: number | null`, both initially null. -/
structure MPesaState where
  accessToken : Option String
  tokenExpiry : Option Int
deriving DecidableEq, Repr

/-- The fields right after construction. -/
def initialState : MPesaState := { accessToken := none, tokenExpiry := none }

/-- The cached-credential check of `authenticate` (`src/MPesa.ts` line
58): `this.accessToken && this.tokenExpiry && Date.now() < this.tokenExpiry`.
JavaScript truthiness makes the empty string and the number 0 fail the
first two conjuncts. -/
def tokenValid (s : MPesaState) (now : Int) : Bool :=
  match s.accessToken, s.tokenExpiry with
  | some t, some exp => decide (t ≠ "" ∧ exp ≠ 0 ∧ now < exp)
  | _, _ => false

/-- The token installation on a successful authentication call
(`src/MPesa.ts` lines 78-81): `this.accessToken = authResponse.accessToken`
and `this.tokenExpiry = Date.now() + authResponse.expiresIn * 1000`. -/
def installToken (now : Int) (d : AuthResponseType) : MPesaState :=
  let a := AuthResponse.fromApiResponse d
  { accessToken := some a.accessToken
    tokenExpiry := a.expiresIn.map fun n => now + n * 1000 }

/-- The `Authorization` header of the authentication request
(`src/MPesa.ts` lines 62-68). -/
def basicHeader (cfg : MpesaConfig) : String :=
  "Basic " ++ base64Encode (cfg.apiKey ++ ":" ++ cfg.secretKey)

/-- `src/models/StkPushResponse.ts`: the raw STK Push response body. -/
structure StkPushResponseType where
  MerchantRequestID : String
  CheckoutRequestID : String
  ResponseCode : String
  ResponseDescription : String
  CustomerMessage : String
deriving DecidableEq, Repr

/-- `src/models/B2CPaymentResponse.ts`: the raw B2C response body. -/
structure B2CResponseType where
  ConversationID : String
  OriginatorConversationID : String
  ResponseCode : String
  ResponseDescription : String
deriving DecidableEq, Repr

/-- `src/models/C2BUrlResponse.ts`: the raw Register URL response body. -/
structure RegisterUrlResponseType where
  responseCode : String
  responseMessage : String
  customerMessage : String
  timestamp : String
deriving DecidableEq, Repr

/-- The payload of `B2CError` (`src/errors/MPesaError.ts`). -/
structure B2CErrorData where
  requestId : String
  errorCode : String
  errorMessage : String
deriving DecidableEq, Repr

/-- The error classes of `src/errors/MPesaError.ts`, one constructor
per class, each carrying its message and its `data` payload. -/
inductive MPesaError where
  | authenticationError (message code : String)
  | stkPushError (message : String) (data : StkPushResponseType)
  | b2cError (message : String) (data : B2CErrorData)
  | registerUrlError (message : String) (data : RegisterUrlResponseType)
deriving DecidableEq, Repr

/-- A thrown JavaScript value at the `MPesa` level: one of the
`MPesaError` classes, or a plain `Error` with its message (as thrown by
the transport and by the catch-all wrappers). -/
inductive Thrown where
  | mpesa (e : MPesaError)
  | js (message : String)
deriving DecidableEq, Repr

/-- The value caught by the `catch` of `authenticate` (`src/MPesa.ts`
lines 84-94): either an object with a `data` field holding
`resultCode`/`resultDesc` (the shape the catch inspects), or a plain
`Error` (which has no `data` field), as the transport actually throws. -/
inductive AuthCaught where
  | withData (resultCode resultDesc : String)
  | plain (e : APIClient.CodeError)
deriving DecidableEq, Repr

/-- The client state threaded through a run, together with a count of
the authentication HTTP calls issued so far. -/
structure Trace where
  state : MPesaState
  authCalls : Nat
deriving DecidableEq, Repr

/-- The observable outcome of one call to `authenticate`: the error it
throws (if any), the final instance state and call count, and the
`Authorization` header of the authentication request when one was
dispatched (`none` when the cached credential was reused). -/
structure AuthView where
  err : Option MPesaError
  trace : Trace
  sentBasic : Option String
deriving DecidableEq, Repr

/-- `MPesa.authenticate` (`src/MPesa.ts` lines 57-95).  `outcome` is
the result of the `requestWithRetry` call it performs when the cached
credential is invalid.  On success the token fields are overwritten; on
failure the catch block builds an `AuthenticationError` from the caught
value's `data` field when one exists and falls back to
`AuthenticationError` with message
`Unexpected error during authentication` and code `UNKNOWN_ERROR`
otherwise, leaving the token fields untouched. -/
def authenticate (cfg : MpesaConfig)
    (outcome : Except AuthCaught AuthResponseType) (now : Int)
    (t : Trace) : AuthView :=
  if tokenValid t.state now then
    { err := none, trace := t, sentBasic := none }
  else
    match outcome with
    | .ok d =>
        { err := none
          trace := { state := installToken now d, authCalls := t.authCalls + 1 }
          sentBasic := some (basicHeader cfg) }
    | .error c =>
        { err := some (match c with
            | .withData rc rd => .authenticationError rd rc
            | .plain _ =>
                .authenticationError "Unexpected error during authentication"
                  "UNKNOWN_ERROR")
          trace := { state := t.state, authCalls := t.authCalls + 1 }
          sentBasic := some (basicHeader cfg) }

/-- The observable outcome of one `makeAuthorizedRequest`: its result
or thrown error, the final trace, the authentication header sent if a
token had to be fetched, and the bearer header of the authorized
request when it was dispatched. -/
structure CallView (α : Type) where
  result : Except Thrown α
  trace : Trace
  sentBasic : Option String
  sentBearer : Option String
deriving Repr

/-- `MPesa.makeAuthorizedRequest` (`src/MPesa.ts` lines 97-117): first
`await this.authenticate()` (whose error propagates unchanged), then
the request with header `Bearer ${this.accessToken}` (template-literal
interpolation of `null` prints `null`), returning `res.data` or
rethrowing the transport error. -/
def makeAuthorizedRequest {α : Type} (cfg : MpesaConfig)
    (authOutcome : Except AuthCaught AuthResponseType)
    (reqOutcome : Except APIClient.CodeError α) (now : Int)
    (t : Trace) : CallView α :=
  let av := authenticate cfg authOutcome now t
  match av.err with
  | some e =>
      { result := .error (.mpesa e), trace := av.trace
        sentBasic := av.sentBasic, sentBearer := none }
  | none =>
      let bearer := "Bearer " ++
        (match av.trace.state.accessToken with
         | some s => s
         | none => "null")
      match reqOutcome with
      | .ok v =>
          { result := .ok v, trace := av.trace
            sentBasic := av.sentBasic, sentBearer := some bearer }
      | .error e =>
          { result := .error (.js e.message), trace := av.trace
            sentBasic := av.sentBasic, sentBearer := some bearer }

/-- The `StkPushResponse` class (`src/models/StkPushResponse.ts`). -/
structure StkPushResponse where
  MerchantRequestID : String
  CheckoutRequestID : String
  ResponseCode : String
  ResponseDescription : String
  CustomerMessage : String
deriving DecidableEq, Repr

/-- `StkPushResponse.fromApiResponse`: copies every field of the raw
body. -/
def StkPushResponse.fromApiResponse (d : StkPushResponseType) : StkPushResponse :=
  { MerchantRequestID := d.MerchantRequestID
    CheckoutRequestID := d.CheckoutRequestID
    ResponseCode := d.ResponseCode
    ResponseDescription := d.ResponseDescription
    CustomerMessage := d.CustomerMessage }

/-- `StkPushResponse.isSuccess`: the success sentinel is the literal
string `0`. -/
def StkPushResponse.isSuccess (r : StkPushResponse) : Bool :=
  r.ResponseCode = "0"

/-- The `B2CResponse` class (`src/models/B2CPaymentResponse.ts`). -/
structure B2CResponse where
  ConversationID : String
  OriginatorConversationID : String
  ResponseCode : String
  ResponseDescription : String
deriving DecidableEq, Repr

/-- `B2CResponse.fromApiResponse`: copies every field of the raw body. -/
def B2CResponse.fromApiResponse (d : B2CResponseType) : B2CResponse :=
  { ConversationID := d.ConversationID
    OriginatorConversationID := d.OriginatorConversationID
    ResponseCode := d.ResponseCode
    ResponseDescription := d.ResponseDescription }

/-- `B2CResponse.isSuccess`: the success sentinel is the literal
string `0`. -/
def B2CResponse.isSuccess (r : B2CResponse) : Bool :=
  r.ResponseCode = "0"

/-- The `RegisterUrlResponse` class (`src/models/C2BUrlResponse.ts`). -/
structure RegisterUrlResponse where
  responseCode : String
  responseMessage : String
  customerMessage : String
  timestamp : String
deriving DecidableEq, Repr

/-- `RegisterUrlResponse.fromApiResponse`: copies every field of the
raw body. -/
def RegisterUrlResponse.fromApiResponse (d : RegisterUrlResponseType) :
    RegisterUrlResponse :=
  { responseCode := d.responseCode
    responseMessage := d.responseMessage
    customerMessage := d.customerMessage
    timestamp := d.timestamp }

/-- `RegisterUrlResponse.isSuccess`: the success sentinel is the
literal string `200`. -/
def RegisterUrlResponse.isSuccess (r : RegisterUrlResponse) : Bool :=
  r.responseCode = "200"

/-- The body-level step of `MPesa.stkPush` (`src/MPesa.ts` lines
125-151) on a decoded response delivered by a successful transport:
decode via `fromApiResponse`, return the decoded result when
`isSuccess`, otherwise throw `StkPushError` carrying the raw body
verbatim (the surrounding catch rethrows a `StkPushError` unchanged). -/
def stkPush (body : StkPushResponseType) : Except MPesaError StkPushResponse :=
  let r := StkPushResponse.fromApiResponse body
  if r.isSuccess then .ok r
  else .error (.stkPushError "STK Push request failed" body)

/-- The body-level step of `MPesa.b2cPayment` (`src/MPesa.ts` lines
196-229): on a failed predicate it throws `B2CError` whose data is
built from a placeholder `requestId` of `--` together with the body's
`ResponseCode` and `ResponseDescription` fields only. -/
def b2cPayment (body : B2CResponseType) : Except MPesaError B2CResponse :=
  let r := B2CResponse.fromApiResponse body
  if r.isSuccess then .ok r
  else .error (.b2cError "B2C Pay Out request failed"
    { requestId := "--"
      errorCode := r.ResponseCode
      errorMessage := r.ResponseDescription })

/-- The body-level step of `MPesa.registerC2BUrl` (`src/MPesa.ts`
lines 159-188): on a failed predicate it throws `RegisterUrlError`
carrying the raw body verbatim. -/
def registerC2BUrl (body : RegisterUrlResponseType) :
    Except MPesaError RegisterUrlResponse :=
  let r := RegisterUrlResponse.fromApiResponse body
  if r.isSuccess then .ok r
  else .error (.registerUrlError "Register URL request failed" body)

/-- The observable outcome of a full operation wrapper: its result, the
final trace, and the number of authorized (bearer) requests it
dispatched through the transport. -/
structure OpView (ρ : Type) where
  result : Except Thrown ρ
  trace : Trace
  bearerRequests : Nat
deriving Repr

/-- The printed form `String(error)` used when `stkPush` interpolates a
non-`StkPushError` into its catch-all message. -/
def Thrown.display : Thrown → String
  | .mpesa (.authenticationError m _) => "AuthenticationError: " ++ m
  | .mpesa (.stkPushError m _) => "StkPushError: " ++ m
  | .mpesa (.b2cError m _) => "B2CError: " ++ m
  | .mpesa (.registerUrlError m _) => "RegisterUrlError: " ++ m
  | .js m => "Error: " ++ m

/-- The full `MPesa.stkPush` pipeline (`src/MPesa.ts` lines 125-151):
one `makeAuthorizedRequest`, then the body-level success check; the
catch rethrows a `StkPushError` unchanged and wraps anything else in a
plain `Error` whose message interpolates the caught value.  The body
check issues no further transport request: `bearerRequests` counts the
authorized dispatches. -/
def stkPushFull (cfg : MpesaConfig)
    (authOutcome : Except AuthCaught AuthResponseType)
    (reqOutcome : Except APIClient.CodeError StkPushResponseType)
    (now : Int) (t : Trace) : OpView StkPushResponse :=
  let cv := makeAuthorizedRequest cfg authOutcome reqOutcome now t
  let n := if cv.sentBearer.isSome then 1 else 0
  match cv.result with
  | .ok body =>
      match stkPush body with
      | .ok r => { result := .ok r, trace := cv.trace, bearerRequests := n }
      | .error e =>
          { result := .error (.mpesa e), trace := cv.trace, bearerRequests := n }
  | .error e =>
      match e with
      | .mpesa (.stkPushError m d) =>
          { result := .error (.mpesa (.stkPushError m d)), trace := cv.trace
            bearerRequests := n }
      | other =>
          { result := .error (.js
              ("Unexpected error occurred during STK Push " ++ other.display))
            trace := cv.trace, bearerRequests := n }

/-- Modelled from the source under the Node event-loop semantics: two
callers run `authenticate` concurrently against one shared instance.
Each caller's synchronous segment — the cached-credential check at line
58 through dispatching the HTTP request at line 71 — runs atomically
before either response handler (the assignments at lines 80-81) runs,
because the segment contains no `await` before the request is issued.
Both callers therefore observe the same initial state `s0`; afterwards
the two response handlers install their tokens in order.  `r1` and
`r2` are the two authentication responses; the result is the number of
authentication HTTP calls dispatched and the final state. -/
def twoConcurrentAuthenticate (r1 r2 : AuthResponseType) (now : Int)
    (s0 : MPesaState) : Nat × MPesaState :=
  let aCalls := if tokenValid s0 now then 0 else 1
  let bCalls := if tokenValid s0 now then 0 else 1
  let s1 := if tokenValid s0 now then s0 else installToken now r1
  let s2 := if tokenValid s0 now then s1 else installToken now r2
  (aCalls + bCalls, s2)

end MPesa

open APIClient MPesa in
/-- Helper: when every attempt fails with the same raw failure `f` and
at least one loop iteration remains, the loop runs the remaining
iterations and surfaces the final rethrow, with `attempts` ending at
`retries`. -/
theorem requestLoop_const_fail {α : Type} (f : APIClient.AxiosFailure)
    (retries : Nat) :
    ∀ fuel attempts, fuel + attempts = retries → 1 ≤ fuel →
      APIClient.requestLoop (α := α) (fun _ => .error f) retries fuel attempts
        = (.error (APIClient.rethrow (APIClient.handleError f)), retries) := by
  intro fuel
  induction fuel with
  | zero => intro attempts h h1; omega
  | succ n ih =>
      intro attempts h _
      simp only [APIClient.requestLoop]
      by_cases hle : retries ≤ attempts + 1
      · have ha : attempts + 1 = retries := by omega
        simp [hle, ha]
      · have h2 : n + (attempts + 1) = retries := by omega
        have h3 : 1 ≤ n := by omega
        simp only [if_neg hle]
        exact ih (attempts + 1) h2 h3

open APIClient MPesa in
/-- Helper: `requestWithRetry` under a constantly failing transport,
for any budget of at least one attempt. -/
theorem requestWithRetry_const_fail {α : Type} (f : APIClient.AxiosFailure)
    (N : Nat) (hN : 1 ≤ N) :
    APIClient.requestWithRetry (α := α) (fun _ => .error f) N
      = (.error (APIClient.rethrow (APIClient.handleError f)), N) := by
  unfold APIClient.requestWithRetry
  exact requestLoop_const_fail f N N 0 (by omega) hN

/-- Claim C1, counterexample: with the default budget of 3 and a
request that fails with HTTP status 400 on every attempt — a failure
the taxonomy classifies as `ValidationFailed` — `requestWithRetry`
makes 3 attempts, not 1: the `catch` at lines 49-53 swallows every
error kind until the budget is exhausted, so nothing fails fast. -/
theorem c1_counterexample :
    APIClient.errorKind (APIClient.handleError ⟨some ⟨400, none⟩, true, "m"⟩)
        = .ValidationFailed
      ∧ (APIClient.requestWithRetry (α := Unit)
          (fun _ => .error ⟨some ⟨400, none⟩, true, "m"⟩) 3).2 = 3
      ∧ (3 : Nat) ≠ 1 := by
  refine ⟨by decide, rfl, by decide⟩

/-- Claim C1 (amended): the retry loop treats every failure kind alike —
for every budget `N ≥ 1`, a request whose failure is classified
`ValidationFailed` or `AuthenticationFailed` on every attempt consumes
all `N` attempts (not 1) before the classified error is surfaced
through the final rethrow; no failure kind is excluded from
re-attempt. -/
theorem c1_uniform_retry {α : Type} (N : Nat) (hN : 1 ≤ N)
    (f : APIClient.AxiosFailure)
    (_hk : APIClient.errorKind (APIClient.handleError f) = .ValidationFailed ∨
           APIClient.errorKind (APIClient.handleError f) = .AuthenticationFailed) :
    APIClient.requestWithRetry (α := α) (fun _ => .error f) N
      = (.error (APIClient.rethrow (APIClient.handleError f)), N) :=
  requestWithRetry_const_fail f N hN

/-- Claim C1 witness: budget 3, every attempt failing with status 400. -/
theorem c1_uniform_retry_witness :
    1 ≤ 3
      ∧ APIClient.errorKind (APIClient.handleError ⟨some ⟨400, none⟩, true, "m"⟩)
          = .ValidationFailed
      ∧ APIClient.requestWithRetry (α := Unit)
          (fun _ => .error ⟨some ⟨400, none⟩, true, "m"⟩) 3
        = (.error (.genericError "Bad Request: Check your input."), 3) :=
  ⟨by decide, by decide,
    c1_uniform_retry 3 (by decide) ⟨some ⟨400, none⟩, true, "m"⟩ (Or.inl (by decide))⟩

/-- Claim C2, counterexample: with budget 3 and a transport that fails
with no response on every attempt, exactly 3 attempts are made and the
surfaced error does carry the real cause in its message, but it is not
the transient-branch error: the response interceptor classifies each
failure as the network error, and the final `this.handleError(error)`
at line 51 then re-handles that plain `Error` — which has neither
`response` nor `request` — through the generic catch-all branch, whose
taxonomy kind is `UnknownError`, not `TransientServiceError`. -/
theorem c2_counterexample :
    APIClient.requestWithRetry (α := Unit)
        (fun _ => .error ⟨none, true, "timeout of 5000ms exceeded"⟩) 3
      = (.error (.genericError "Network Error: No response from server."), 3)
    ∧ APIClient.errorKind
        (.genericError "Network Error: No response from server.") = .UnknownError
    ∧ APIClient.ErrorKind.UnknownError ≠ .TransientServiceError := by
  refine ⟨rfl, by decide, by decide⟩

/-- Claim C2 (amended): for every budget `N ≥ 1` and an underlying call
that fails with a transient no-response condition on every attempt,
`requestWithRetry` makes exactly `N` attempts and surfaces an error
whose message wraps the transient classification verbatim
(`Error: Network Error: No response from server.`) — never the
`Request failed after max retries.` fallback — but whose own branch is
the generic catch-all (`UnknownError`), because the final rethrow
re-handles the already-classified error. -/
theorem c2_transient_exhaustion {α : Type} (N : Nat) (hN : 1 ≤ N)
    (f : APIClient.AxiosFailure) (hresp : f.response = none)
    (hreq : f.request = true) :
    APIClient.requestWithRetry (α := α) (fun _ => .error f) N
        = (.error (.genericError "Network Error: No response from server."), N)
      ∧ (APIClient.CodeError.genericError
            "Network Error: No response from server.").message
          = "Error: Network Error: No response from server."
      ∧ APIClient.CodeError.genericError "Network Error: No response from server."
          ≠ .maxRetriesFallback := by
  have hf : APIClient.handleError f = .networkError := by
    simp [APIClient.handleError, hresp, hreq]
  refine ⟨?_, by decide, by decide⟩
  have := requestWithRetry_const_fail (α := α) f N hN
  rw [hf] at this
  exact this

/-- Claim C2 witness: budget 3, every attempt a no-response failure. -/
theorem c2_transient_exhaustion_witness :
    1 ≤ 3
      ∧ (⟨none, true, "t"⟩ : APIClient.AxiosFailure).response = none
      ∧ (⟨none, true, "t"⟩ : APIClient.AxiosFailure).request = true
      ∧ (APIClient.requestWithRetry (α := Unit)
            (fun _ => .error ⟨none, true, "t"⟩) 3
          = (.error (.genericError "Network Error: No response from server."), 3)
        ∧ (APIClient.CodeError.genericError
              "Network Error: No response from server.").message
            = "Error: Network Error: No response from server."
        ∧ APIClient.CodeError.genericError
              "Network Error: No response from server." ≠ .maxRetriesFallback) :=
  ⟨by decide, rfl, rfl,
    c2_transient_exhaustion 3 (by decide) ⟨none, true, "t"⟩ rfl rfl⟩

/-- Claim C3, counterexample: the specified mapping sends status 403 to
`AuthenticationFailed` and status 502 (as any status at least 500) to
`TransientServiceError`, but `handleError`'s switch has cases only for
the exact statuses 400, 401, 404 and 500, so 403 and 502 both fall to
the default branch, whose kind is `UnknownError`. -/
theorem c3_counterexample :
    APIClient.specClassify ⟨some ⟨403, none⟩, true, "m"⟩ = .AuthenticationFailed
      ∧ APIClient.errorKind (APIClient.handleError ⟨some ⟨403, none⟩, true, "m"⟩)
          = .UnknownError
      ∧ APIClient.specClassify ⟨some ⟨502, none⟩, true, "m"⟩ = .TransientServiceError
      ∧ APIClient.errorKind (APIClient.handleError ⟨some ⟨502, none⟩, true, "m"⟩)
          = .UnknownError
      ∧ APIClient.ErrorKind.AuthenticationFailed ≠ .UnknownError
      ∧ APIClient.ErrorKind.TransientServiceError ≠ .UnknownError := by
  decide

/-- Claim C3 (amended): the implemented classification is total and
maps: no response with a request sent to `TransientServiceError`; no
response and no request to `UnknownError`; status 401 to
`AuthenticationFailed`; statuses 400 and 404 to `ValidationFailed`;
exactly status 500 to `TransientServiceError`; every other status —
including 403 and every status strictly above 500 — to `UnknownError`. -/
theorem c3_classification (e : APIClient.AxiosFailure) :
    APIClient.errorKind (APIClient.handleError e) =
      match e.response with
      | none => if e.request then .TransientServiceError else .UnknownError
      | some r =>
          if r.status = 401 then .AuthenticationFailed
          else if r.status = 400 ∨ r.status = 404 then .ValidationFailed
          else if r.status = 500 then .TransientServiceError
          else .UnknownError := by
  rcases e with ⟨resp, req, msg⟩
  cases resp with
  | none => cases req <;> rfl
  | some r =>
      rcases r with ⟨s, b⟩
      simp only [APIClient.handleError]
      by_cases h1 : s = 400 <;> by_cases h2 : s = 401 <;> by_cases h3 : s = 404
        <;> by_cases h4 : s = 500 <;> simp_all [APIClient.errorKind]

/-- Claim C5: for every server whose cursor chain from `start` runs
through the URLs `rest` and terminates (the last page's cursor is
falsy), `fetchPaginated` returns the concatenation, in page order, of
the elements found at the results field of each page — appending
nothing where that field is missing or not a list, following the
cursor field while it is truthy — and performs exactly one GET per
page. -/
theorem c5_pagination {α : Type} (server : String → APIClient.PageBody α)
    (start : String) :
    ∀ (rest : List String) (fuel : Nat),
      APIClient.followsChain server start rest → rest.length + 1 ≤ fuel →
      APIClient.fetchPaginated server fuel start
        = some (APIClient.chainItems server start rest, rest.length + 1) := by
  intro rest
  induction rest generalizing start with
  | nil =>
      intro fuel h hf
      obtain ⟨m, rfl⟩ : ∃ m, fuel = m + 1 := ⟨fuel - 1, by omega⟩
      simp only [APIClient.followsChain] at h
      simp [APIClient.fetchPaginated, h, APIClient.chainItems]
  | cons v tl ih =>
      intro fuel h hf
      obtain ⟨h1, h2⟩ := h
      obtain ⟨m, rfl⟩ : ∃ m, fuel = m + 1 := ⟨fuel - 1, by omega⟩
      have hm : tl.length + 1 ≤ m := by
        simp only [List.length_cons] at hf; omega
      simp only [APIClient.fetchPaginated, h1, ih v m h2 hm,
        APIClient.chainItems, List.length_cons]

/-- The two-page demonstration server of the claim: the start page
holds `[1, 2]` and announces cursor `A`; page `A` holds `[3, 4]` and a
null cursor. -/
def demoServer : String → APIClient.PageBody Nat := fun u =>
  if u = "A" then { results := some [3, 4], cursor := none }
  else { results := some [1, 2], cursor := some "A" }

/-- Claim C5 witness: the demonstration server yields `[1, 2, 3, 4]`
in exactly 2 GET calls. -/
theorem c5_pagination_witness :
    APIClient.followsChain demoServer "start" ["A"]
      ∧ APIClient.fetchPaginated demoServer 2 "start" = some ([1, 2, 3, 4], 2) :=
  ⟨by decide, c5_pagination demoServer "start" ["A"] 2 (by decide) (by decide)⟩

/-- Helper: the `v || d` defaulting never produces 0 when the default
is nonzero. -/
theorem jsNumOr_ne_zero (v : Option Int) (d : Int) (hd : d ≠ 0) :
    APIClient.jsNumOr v d ≠ 0 := by
  rcases v with _ | n
  · simpa [APIClient.jsNumOr] using hd
  · by_cases h : n = 0 <;> simp [APIClient.jsNumOr, h, hd]

/-- Claim C10: a configuration with `retries: 0` or `timeout: 0` is
silently replaced by the defaults (budget 3, timeout 5000 ms), because
the constructor defaults with the falsy-or `config.retries || 3` and
`config.timeout || 5000` rather than an undefined check; consequently
no configuration at all can produce a zero retry budget or a zero
timeout. -/
theorem c10_falsy_defaulting :
    APIClient.mkAPIClient ⟨"https://apisandbox.safaricom.et", some 0, some 0⟩
        = ⟨5000, 3⟩
      ∧ ∀ c : APIClient.APIClientConfig,
          (APIClient.mkAPIClient c).retries ≠ 0
            ∧ (APIClient.mkAPIClient c).timeout ≠ 0 :=
  ⟨rfl, fun c =>
    ⟨jsNumOr_ne_zero c.retries 3 (by decide),
     jsNumOr_ne_zero c.timeout 5000 (by decide)⟩⟩

/-- Helper: right after construction no credential is cached. -/
theorem tokenValid_initial (now : Int) :
    MPesa.tokenValid MPesa.initialState now = false := rfl

/-- Helper: the declared lifetime string of the claims parses to 3600
seconds. -/
theorem jsParseInt_3600 : MPesa.jsParseInt "3600" = some 3600 := by decide

/-- Helper: a cached valid credential short-circuits `authenticate`:
no call, no error, state untouched. -/
theorem authenticate_cached (cfg : MPesa.MpesaConfig)
    (ao : Except MPesa.AuthCaught MPesa.AuthResponseType) (now : Int)
    (t : MPesa.Trace) (h : MPesa.tokenValid t.state now = true) :
    MPesa.authenticate cfg ao now t = ⟨none, t, none⟩ := by
  simp [MPesa.authenticate, h]

/-- Helper: with no valid credential, a successful authentication call
installs the token and counts one call. -/
theorem authenticate_fresh (cfg : MPesa.MpesaConfig)
    (d : MPesa.AuthResponseType) (now : Int) (t : MPesa.Trace)
    (h : MPesa.tokenValid t.state now = false) :
    MPesa.authenticate cfg (.ok d) now t
      = ⟨none, ⟨MPesa.installToken now d, t.authCalls + 1⟩,
          some (MPesa.basicHeader cfg)⟩ := by
  simp [MPesa.authenticate, h]

/-- Helper: when `authenticate` finishes without an error,
`makeAuthorizedRequest` keeps its trace and sends the bearer header
built from the resulting access token, whatever the request outcome. -/
theorem makeAuthorizedRequest_view {α : Type} (cfg : MPesa.MpesaConfig)
    (ao : Except MPesa.AuthCaught MPesa.AuthResponseType)
    (ro : Except APIClient.CodeError α) (now : Int) (t : MPesa.Trace)
    (h : (MPesa.authenticate cfg ao now t).err = none) :
    (MPesa.makeAuthorizedRequest cfg ao ro now t).trace
        = (MPesa.authenticate cfg ao now t).trace
      ∧ (MPesa.makeAuthorizedRequest cfg ao ro now t).sentBasic
          = (MPesa.authenticate cfg ao now t).sentBasic
      ∧ (MPesa.makeAuthorizedRequest cfg ao ro now t).sentBearer
          = some ("Bearer " ++
              (match (MPesa.authenticate cfg ao now t).trace.state.accessToken with
               | some s => s
               | none => "null")) := by
  rcases hav : MPesa.authenticate cfg ao now t with ⟨err, tr, sb⟩
  rw [hav] at h
  simp only at h
  subst h
  cases ro <;> simp [MPesa.makeAuthorizedRequest, hav]

/-- Claim C4: starting from a fresh client configured with `apiKey = K`
and `secretKey = S`, the first authenticated call at time `t0` sends
`Authorization: Basic base64(K:S)` to the token endpoint, and after the
response carries `access_token = T` with `expires_in = "3600"` the call
proceeds with `Authorization: Bearer T`, caching the credential until
`t0 + 3600` seconds; a second authenticated call at any `t1` before
that expiry sends no authentication request at all (one authentication
call in total) and carries `Bearer T` again; a third call at any `t2`
at or past the expiry performs exactly one additional authentication
call. -/
theorem c4_token_lifecycle {α : Type} (K S T tt : String) (hT : T ≠ "")
    (t0 t1 t2 : Int) (h0 : 0 ≤ t0) (_h01 : t0 ≤ t1)
    (h1 : t1 < t0 + 3600 * 1000) (h2 : t0 + 3600 * 1000 ≤ t2)
    (o1 o2 o3 : Except APIClient.CodeError α)
    (a2 : Except MPesa.AuthCaught MPesa.AuthResponseType)
    (d3 : MPesa.AuthResponseType) :
    (MPesa.makeAuthorizedRequest ⟨K, S⟩ (.ok ⟨T, tt, "3600"⟩) o1 t0
        ⟨MPesa.initialState, 0⟩).sentBasic
        = some ("Basic " ++ base64Encode (K ++ ":" ++ S))
      ∧ (MPesa.makeAuthorizedRequest ⟨K, S⟩ (.ok ⟨T, tt, "3600"⟩) o1 t0
          ⟨MPesa.initialState, 0⟩).sentBearer = some ("Bearer " ++ T)
      ∧ (MPesa.makeAuthorizedRequest ⟨K, S⟩ (.ok ⟨T, tt, "3600"⟩) o1 t0
          ⟨MPesa.initialState, 0⟩).trace
          = ⟨⟨some T, some (t0 + 3600 * 1000)⟩, 1⟩
      ∧ (MPesa.makeAuthorizedRequest ⟨K, S⟩ a2 o2 t1
          ⟨⟨some T, some (t0 + 3600 * 1000)⟩, 1⟩).sentBasic = none
      ∧ (MPesa.makeAuthorizedRequest ⟨K, S⟩ a2 o2 t1
          ⟨⟨some T, some (t0 + 3600 * 1000)⟩, 1⟩).sentBearer
          = some ("Bearer " ++ T)
      ∧ (MPesa.makeAuthorizedRequest ⟨K, S⟩ a2 o2 t1
          ⟨⟨some T, some (t0 + 3600 * 1000)⟩, 1⟩).trace
          = ⟨⟨some T, some (t0 + 3600 * 1000)⟩, 1⟩
      ∧ (MPesa.makeAuthorizedRequest ⟨K, S⟩ (.ok d3) o3 t2
          ⟨⟨some T, some (t0 + 3600 * 1000)⟩, 1⟩).sentBasic
          = some ("Basic " ++ base64Encode (K ++ ":" ++ S))
      ∧ (MPesa.makeAuthorizedRequest ⟨K, S⟩ (.ok d3) o3 t2
          ⟨⟨some T, some (t0 + 3600 * 1000)⟩, 1⟩).trace.authCalls = 2 := by
  have hexp : t0 + 3600 * 1000 ≠ 0 := by omega
  have e1 : MPesa.authenticate ⟨K, S⟩ (.ok ⟨T, tt, "3600"⟩) t0
      ⟨MPesa.initialState, 0⟩
      = ⟨none, ⟨⟨some T, some (t0 + 3600 * 1000)⟩, 1⟩,
          some (MPesa.basicHeader ⟨K, S⟩)⟩ := by
    rw [authenticate_fresh _ _ _ _ (tokenValid_initial t0)]
    simp [MPesa.installToken, MPesa.AuthResponse.fromApiResponse, jsParseInt_3600]
  have hv1 : MPesa.tokenValid ⟨some T, some (t0 + 3600 * 1000)⟩ t1 = true := by
    rw [show MPesa.tokenValid ⟨some T, some (t0 + 3600 * 1000)⟩ t1
        = decide (T ≠ "" ∧ t0 + 3600 * 1000 ≠ 0 ∧ t1 < t0 + 3600 * 1000) from rfl]
    exact decide_eq_true ⟨hT, hexp, h1⟩
  have e2 : MPesa.authenticate ⟨K, S⟩ a2 t1 ⟨⟨some T, some (t0 + 3600 * 1000)⟩, 1⟩
      = ⟨none, ⟨⟨some T, some (t0 + 3600 * 1000)⟩, 1⟩, none⟩ :=
    authenticate_cached _ _ _ _ hv1
  have hv2 : MPesa.tokenValid ⟨some T, some (t0 + 3600 * 1000)⟩ t2 = false := by
    rw [show MPesa.tokenValid ⟨some T, some (t0 + 3600 * 1000)⟩ t2
        = decide (T ≠ "" ∧ t0 + 3600 * 1000 ≠ 0 ∧ t2 < t0 + 3600 * 1000) from rfl,
      decide_eq_false_iff_not]
    rintro ⟨-, -, hlt⟩
    omega
  have e3 : MPesa.authenticate ⟨K, S⟩ (.ok d3) t2
      ⟨⟨some T, some (t0 + 3600 * 1000)⟩, 1⟩
      = ⟨none, ⟨MPesa.installToken t2 d3, 2⟩,
          some (MPesa.basicHeader ⟨K, S⟩)⟩ :=
    authenticate_fresh _ _ _ _ hv2
  obtain ⟨m1t, m1b, m1r⟩ := makeAuthorizedRequest_view ⟨K, S⟩
    (.ok ⟨T, tt, "3600"⟩) o1 t0 ⟨MPesa.initialState, 0⟩ (by rw [e1])
  obtain ⟨m2t, m2b, m2r⟩ := makeAuthorizedRequest_view ⟨K, S⟩
    a2 o2 t1 ⟨⟨some T, some (t0 + 3600 * 1000)⟩, 1⟩ (by rw [e2])
  obtain ⟨m3t, m3b, m3r⟩ := makeAuthorizedRequest_view ⟨K, S⟩
    (.ok d3) o3 t2 ⟨⟨some T, some (t0 + 3600 * 1000)⟩, 1⟩ (by rw [e3])
  rw [e1] at m1t m1b m1r
  rw [e2] at m2t m2b m2r
  rw [e3] at m3t m3b m3r
  exact ⟨m1b, m1r, m1t, m2b, m2r, m2t, m3b, by rw [m3t]⟩

/-- Claim C4 witness: `K`/`S` credentials, token `T`, first call at
time 0, second at 1000 ms (within the 3600-second lifetime), third at
exactly 3600000 ms (the expiry instant). -/
theorem c4_token_lifecycle_witness :
    ("T" : String) ≠ ""
      ∧ (0 : Int) ≤ 0 ∧ (0 : Int) ≤ 1000 ∧ (1000 : Int) < 0 + 3600 * 1000
      ∧ (0 : Int) + 3600 * 1000 ≤ 3600000
      ∧ (MPesa.makeAuthorizedRequest ⟨"K", "S"⟩ (.ok ⟨"T", "Bearer", "3600"⟩)
          (.ok ()) 0 ⟨MPesa.initialState, 0⟩).sentBasic
          = some ("Basic " ++ base64Encode ("K" ++ ":" ++ "S"))
      ∧ (MPesa.makeAuthorizedRequest ⟨"K", "S"⟩ (.ok ⟨"T", "Bearer", "3600"⟩)
          (.ok ()) 0 ⟨MPesa.initialState, 0⟩).sentBearer
          = some ("Bearer " ++ "T")
      ∧ (MPesa.makeAuthorizedRequest (α := Unit) ⟨"K", "S"⟩
          (.ok ⟨"T2", "Bearer", "3600"⟩) (.ok ()) 1000
          ⟨⟨some "T", some (0 + 3600 * 1000)⟩, 1⟩).sentBasic = none
      ∧ (MPesa.makeAuthorizedRequest (α := Unit) ⟨"K", "S"⟩
          (.ok ⟨"T3", "Bearer", "3600"⟩) (.ok ()) 3600000
          ⟨⟨some "T", some (0 + 3600 * 1000)⟩, 1⟩).trace.authCalls = 2 := by
  have h := c4_token_lifecycle (α := Unit) "K" "S" "T" "Bearer" (by decide)
    0 1000 3600000 (by decide) (by decide) (by decide) (by decide)
    (.ok ()) (.ok ()) (.ok ()) (.ok ⟨"T2", "Bearer", "3600"⟩)
    ⟨"T3", "Bearer", "3600"⟩
  exact ⟨by decide, by decide, by decide, by decide, by decide,
    h.1, h.2.1, h.2.2.2.1, h.2.2.2.2.2.2.2⟩

/-- Claim C7: whenever the cached credential is invalid and the
authentication HTTP call fails — whatever shape the caught value has —
`authenticate` raises an `AuthenticationError` (built from the caught
value's `data` field when present, the `UNKNOWN_ERROR` fallback
otherwise) and leaves `accessToken` and `tokenExpiry` exactly as they
were: a failed refresh installs nothing. -/
theorem c7_auth_failure_preserves_state (cfg : MPesa.MpesaConfig)
    (c : MPesa.AuthCaught) (now : Int) (t : MPesa.Trace)
    (h : MPesa.tokenValid t.state now = false) :
    (MPesa.authenticate cfg (.error c) now t).err
        = some (match c with
            | .withData rc rd => .authenticationError rd rc
            | .plain _ =>
                .authenticationError "Unexpected error during authentication"
                  "UNKNOWN_ERROR")
      ∧ (MPesa.authenticate cfg (.error c) now t).trace.state = t.state := by
  simp [MPesa.authenticate, h]

/-- Claim C7 witness: a fresh client whose authentication call fails
with a network error keeps `accessToken = null` and
`tokenExpiry = null` and raises the fallback `AuthenticationError`. -/
theorem c7_auth_failure_preserves_state_witness :
    MPesa.tokenValid MPesa.initialState 0 = false
      ∧ (MPesa.authenticate ⟨"K", "S"⟩ (.error (.plain .networkError)) 0
            ⟨MPesa.initialState, 0⟩).err
          = some (.authenticationError "Unexpected error during authentication"
              "UNKNOWN_ERROR")
      ∧ (MPesa.authenticate ⟨"K", "S"⟩ (.error (.plain .networkError)) 0
            ⟨MPesa.initialState, 0⟩).trace.state = MPesa.initialState :=
  ⟨rfl,
    (c7_auth_failure_preserves_state ⟨"K", "S"⟩ (.plain .networkError) 0
      ⟨MPesa.initialState, 0⟩ rfl).1,
    (c7_auth_failure_preserves_state ⟨"K", "S"⟩ (.plain .networkError) 0
      ⟨MPesa.initialState, 0⟩ rfl).2⟩

/-- Claim C8, counterexample: a credential expiring at 1000 checked at
the exact instant `now = 1000` is judged invalid — the check at line 58
is `Date.now() < this.tokenExpiry`, strict against the credential — so
`authenticate` dispatches a new authentication call at that instant. -/
theorem c8_counterexample :
    MPesa.tokenValid ⟨some "T", some 1000⟩ 1000 = false
      ∧ (MPesa.authenticate ⟨"K", "S"⟩ (.ok ⟨"T2", "Bearer", "3600"⟩) 1000
            ⟨⟨some "T", some 1000⟩, 0⟩).sentBasic ≠ none
      ∧ (MPesa.authenticate ⟨"K", "S"⟩ (.ok ⟨"T2", "Bearer", "3600"⟩) 1000
            ⟨⟨some "T", some 1000⟩, 0⟩).trace.authCalls = 1 := by
  decide

/-- Claim C8 (amended): the boundary is exclusive, against the
credential: a cached credential (nonempty token, nonzero expiry) is
valid exactly while `now < expiresAt`, and at the instant
`now = expiresAt` the check fails and `authenticate` performs a new
authentication call. -/
theorem c8_exclusive_boundary (tok : String) (e now : Int)
    (hT : tok ≠ "") (he : e ≠ 0) :
    MPesa.tokenValid ⟨some tok, some e⟩ now = decide (now < e)
      ∧ ∀ (cfg : MPesa.MpesaConfig) (d : MPesa.AuthResponseType) (n : Nat),
          (MPesa.authenticate cfg (.ok d) e ⟨⟨some tok, some e⟩, n⟩).trace.authCalls
            = n + 1 := by
  constructor
  · rw [show MPesa.tokenValid ⟨some tok, some e⟩ now
        = decide (tok ≠ "" ∧ e ≠ 0 ∧ now < e) from rfl, decide_eq_decide]
    exact ⟨fun h => h.2.2, fun h => ⟨hT, he, h⟩⟩
  · intro cfg d n
    have hv : MPesa.tokenValid ⟨some tok, some e⟩ e = false := by
      rw [show MPesa.tokenValid ⟨some tok, some e⟩ e
          = decide (tok ≠ "" ∧ e ≠ 0 ∧ e < e) from rfl, decide_eq_false_iff_not]
      rintro ⟨-, -, hlt⟩
      omega
    simp [MPesa.authenticate, hv]

/-- Claim C8 witness: token `T`, expiry 1000, checked at 999 (valid)
and refreshed when checked at the expiry instant. -/
theorem c8_exclusive_boundary_witness :
    ("T" : String) ≠ "" ∧ (1000 : Int) ≠ 0
      ∧ MPesa.tokenValid ⟨some "T", some 1000⟩ 999 = true
      ∧ (MPesa.authenticate ⟨"K", "S"⟩ (.ok ⟨"T2", "Bearer", "3600"⟩) 1000
            ⟨⟨some "T", some 1000⟩, 1⟩).trace.authCalls = 2 := by
  have h := c8_exclusive_boundary "T" 1000 999 (by decide) (by decide)
  exact ⟨by decide, by decide, h.1, h.2 ⟨"K", "S"⟩ ⟨"T2", "Bearer", "3600"⟩ 1⟩

/-- Claim C9, counterexample: two concurrent authenticated calls on a
fresh client trigger 2 authentication calls, not 1: both callers pass
the line-58 check against the same un-refreshed state before either
response handler installs a token, and nothing serializes the refresh. -/
theorem c9_counterexample :
    (MPesa.twoConcurrentAuthenticate ⟨"T", "Bearer", "3600"⟩
        ⟨"T", "Bearer", "3600"⟩ 0 MPesa.initialState).1 = 2
      ∧ (2 : Nat) ≠ 1 := by
  decide

/-- Claim C9 (amended): the refresh transition is not serialized — for
every pair of concurrent callers that start while the cached credential
is invalid, each dispatches its own authentication call (2 calls for 2
callers), and the later response's token is the one left installed. -/
theorem c9_no_serialization (r1 r2 : MPesa.AuthResponseType) (now : Int)
    (s0 : MPesa.MPesaState) (h : MPesa.tokenValid s0 now = false) :
    MPesa.twoConcurrentAuthenticate r1 r2 now s0
      = (2, MPesa.installToken now r2) := by
  simp [MPesa.twoConcurrentAuthenticate, h]

/-- Claim C9 witness: a fresh client, two concurrent callers. -/
theorem c9_no_serialization_witness :
    MPesa.tokenValid MPesa.initialState 0 = false
      ∧ MPesa.twoConcurrentAuthenticate ⟨"T1", "Bearer", "3600"⟩
          ⟨"T2", "Bearer", "3600"⟩ 0 MPesa.initialState
        = (2, MPesa.installToken 0 ⟨"T2", "Bearer", "3600"⟩) :=
  ⟨rfl, c9_no_serialization ⟨"T1", "Bearer", "3600"⟩ ⟨"T2", "Bearer", "3600"⟩ 0
    MPesa.initialState rfl⟩

/-- Helper: an `authenticate` whose HTTP outcome is a success never
raises, whether or not the cached credential was still valid. -/
theorem authenticate_ok_err (cfg : MPesa.MpesaConfig)
    (d : MPesa.AuthResponseType) (now : Int) (t : MPesa.Trace) :
    (MPesa.authenticate cfg (.ok d) now t).err = none := by
  unfold MPesa.authenticate
  split <;> rfl

/-- Claim C6, counterexample: two B2C response bodies that differ in
`ConversationID` and `OriginatorConversationID` but share the failure
code produce the *same* `B2CError` — the raised error carries only the
placeholder `requestId` `--` plus `ResponseCode` and
`ResponseDescription`, so it cannot carry the exact body verbatim. -/
theorem c6_counterexample :
    (⟨"c1", "o1", "1", "fail"⟩ : MPesa.B2CResponseType) ≠ ⟨"c2", "o2", "1", "fail"⟩
      ∧ MPesa.b2cPayment ⟨"c1", "o1", "1", "fail"⟩
          = MPesa.b2cPayment ⟨"c2", "o2", "1", "fail"⟩ :=
  ⟨by decide, rfl⟩

/-- Claim C6 (amended): a body whose response code equals the
operation's success sentinel (`0` for STK Push and B2C, `200` for
Register URL) decodes to a non-error result whose fields equal the
body's fields; a body with any other code raises the operation-tagged
error — `StkPushError` and `RegisterUrlError` carry the body verbatim,
but `B2CError` carries only `requestId = "--"`, the body's
`ResponseCode` and its `ResponseDescription`; and the body-level check
happens after the single authorized dispatch, which is never repeated
for a body-level failure. -/
theorem c6_domain_failures (sb : MPesa.StkPushResponseType)
    (rb : MPesa.RegisterUrlResponseType) (bb : MPesa.B2CResponseType) :
    (sb.ResponseCode = "0" →
        MPesa.stkPush sb = .ok (MPesa.StkPushResponse.fromApiResponse sb))
      ∧ (sb.ResponseCode ≠ "0" →
          MPesa.stkPush sb = .error (.stkPushError "STK Push request failed" sb))
      ∧ (rb.responseCode = "200" →
          MPesa.registerC2BUrl rb
            = .ok (MPesa.RegisterUrlResponse.fromApiResponse rb))
      ∧ (rb.responseCode ≠ "200" →
          MPesa.registerC2BUrl rb
            = .error (.registerUrlError "Register URL request failed" rb))
      ∧ (bb.ResponseCode = "0" →
          MPesa.b2cPayment bb = .ok (MPesa.B2CResponse.fromApiResponse bb))
      ∧ (bb.ResponseCode ≠ "0" →
          MPesa.b2cPayment bb = .error (.b2cError "B2C Pay Out request failed"
            ⟨"--", bb.ResponseCode, bb.ResponseDescription⟩))
      ∧ MPesa.StkPushResponse.fromApiResponse sb
          = ⟨sb.MerchantRequestID, sb.CheckoutRequestID, sb.ResponseCode,
              sb.ResponseDescription, sb.CustomerMessage⟩
      ∧ ∀ (cfg : MPesa.MpesaConfig) (d : MPesa.AuthResponseType) (now : Int)
          (t : MPesa.Trace),
          (MPesa.stkPushFull cfg (.ok d) (.ok sb) now t).bearerRequests = 1 := by
  refine ⟨?_, ?_, ?_, ?_, ?_, ?_, rfl, ?_⟩
  · intro h
    simp [MPesa.stkPush, MPesa.StkPushResponse.isSuccess,
      MPesa.StkPushResponse.fromApiResponse, h]
  · intro h
    simp [MPesa.stkPush, MPesa.StkPushResponse.isSuccess,
      MPesa.StkPushResponse.fromApiResponse, h]
  · intro h
    simp [MPesa.registerC2BUrl, MPesa.RegisterUrlResponse.isSuccess,
      MPesa.RegisterUrlResponse.fromApiResponse, h]
  · intro h
    simp [MPesa.registerC2BUrl, MPesa.RegisterUrlResponse.isSuccess,
      MPesa.RegisterUrlResponse.fromApiResponse, h]
  · intro h
    simp [MPesa.b2cPayment, MPesa.B2CResponse.isSuccess,
      MPesa.B2CResponse.fromApiResponse, h]
  · intro h
    simp [MPesa.b2cPayment, MPesa.B2CResponse.isSuccess,
      MPesa.B2CResponse.fromApiResponse, h]
  · intro cfg d now t
    obtain ⟨-, -, hb⟩ := makeAuthorizedRequest_view cfg (.ok d) (.ok sb) now t
      (authenticate_ok_err cfg d now t)
    simp only [MPesa.stkPushFull, hb, Option.isSome_some, if_true]
    split <;> (try split) <;> rfl

/-- Claim C6 witness: one success body and one failure body per check,
plus the single-dispatch count on a failing STK Push body. -/
theorem c6_domain_failures_witness :
    (("1" : String) ≠ "0")
      ∧ MPesa.stkPush ⟨"m", "c", "0", "ok", "cm"⟩ = .ok ⟨"m", "c", "0", "ok", "cm"⟩
      ∧ MPesa.stkPush ⟨"m", "c", "1", "bad", "cm"⟩
          = .error (.stkPushError "STK Push request failed" ⟨"m", "c", "1", "bad", "cm"⟩)
      ∧ MPesa.b2cPayment ⟨"cv", "ov", "1", "bad"⟩
          = .error (.b2cError "B2C Pay Out request failed" ⟨"--", "1", "bad"⟩)
      ∧ MPesa.registerC2BUrl ⟨"200", "ok", "cm", "ts"⟩
          = .ok ⟨"200", "ok", "cm", "ts"⟩
      ∧ (MPesa.stkPushFull ⟨"K", "S"⟩ (.ok ⟨"T", "Bearer", "3600"⟩)
            (.ok ⟨"m", "c", "1", "bad", "cm"⟩) 0
            ⟨MPesa.initialState, 0⟩).bearerRequests = 1 := by
  have hA := c6_domain_failures ⟨"m", "c", "0", "ok", "cm"⟩
    ⟨"200", "ok", "cm", "ts"⟩ ⟨"cv", "ov", "0", "ok"⟩
  have hB := c6_domain_failures ⟨"m", "c", "1", "bad", "cm"⟩
    ⟨"400", "no", "cm", "ts"⟩ ⟨"cv", "ov", "1", "bad"⟩
  exact ⟨by decide, hA.1 rfl, hB.2.1 (by decide),
    hB.2.2.2.2.2.1 (by decide), hA.2.2.1 rfl,
    hB.2.2.2.2.2.2.2 ⟨"K", "S"⟩ ⟨"T", "Bearer", "3600"⟩ 0 ⟨MPesa.initialState, 0⟩⟩
